import Mathlib

/-!
Verification development for the FP-PBKK backend (NestJS + Prisma).

The file shallowly embeds the authentication subsystem (`AuthService`,
`JwtStrategy`, `MailService`, `handlePrismaError`) and the post/reply
subsystem (`PostsService`, `PostsController`) as pure Lean functions over an
explicit record store (`DB`), and proves the claimed contracts about them.

Modelling conventions, stated once:
* bcrypt is modelled as an idealised salted hash: `bcryptHash` packages the
  plaintext with the cost factor, and `bcryptCompare` succeeds exactly when
  the plaintext matches.  This captures the control flow the code relies on
  (compare succeeds iff the same value was hashed) without modelling the
  digest math.
* JWTs are modelled as signed records: `jwtSign` packages the claims
  (`sub`, `email`), the issued-at instant `iat`, the expiry `exp = iat + ttl`
  and the signing secret; `jwtVerify` succeeds exactly on an unexpired token
  carrying the expected secret (an idealised unforgeable signature, matching
  jsonwebtoken's verify with `ignoreExpiration: false`).
* Asynchronous store calls become explicit state passing `DB → ... × DB`;
  fallible paths return `Except Failure`.  Prisma's `update`/`delete` with a
  unique `where` reject with error code P2025 when no record matches, which
  the model reproduces.  Record ids are unique in the real store; `update`
  is modelled as a map over the matching records and `delete` as a filter.
* The outbound mail transporter's outcome is passed in as an explicit
  `Except String MailInfo` argument, standing for the result of
  `transporter.sendMail`; the `MailService` methods swallow the error branch
  exactly as the `try/catch` in the source does.
* `id` generation (Prisma `cuid()`) and the clock are passed in as explicit
  `newId` / `now` arguments.
-/

/-- Idealised bcrypt digest of a value of type `α`: the stored hash
determines (only) whether a presented plaintext matches, which is all the
code observes through `bcrypt.compare`. The cost factor (10 in the source)
is carried along. -/
structure BcryptHash (α : Type) where
  plain : α
  cost : Nat
deriving DecidableEq

/-- Model of `bcrypt.hash(plain, cost)`. -/
def bcryptHash {α : Type} (plain : α) (cost : Nat) : BcryptHash α :=
  { plain := plain, cost := cost }

/-- Model of `bcrypt.compare(plain, hash)`: succeeds exactly when the same
plaintext was hashed. -/
def bcryptCompare {α : Type} [BEq α] (plain : α) (h : BcryptHash α) : Bool :=
  plain == h.plain

/-- The JWT payload of `src/auth/dto/jwt-payload.dto.ts`: `{ sub, email }`. -/
structure JwtPayload where
  sub : String
  email : String
deriving DecidableEq

/-- Idealised signed JWT: claims, issued-at, expiry, and the signing secret
(standing for the unforgeable signature). -/
structure Jwt where
  sub : String
  email : String
  iat : Nat
  exp : Nat
  secret : String
deriving DecidableEq

/-- Model of `jwtService.signAsync(payload, { expiresIn, secret })` at
instant `iat`. -/
def jwtSign (payload : JwtPayload) (iat ttl : Nat) (secret : String) : Jwt :=
  { sub := payload.sub, email := payload.email, iat := iat,
    exp := iat + ttl, secret := secret }

/-- Model of `jwtService.verify(token, { secret })` at instant `now`:
succeeds iff the token carries the expected secret and is unexpired. -/
def jwtVerify (t : Jwt) (secret : String) (now : Nat) : Option JwtPayload :=
  if t.secret == secret && decide (now < t.exp) then
    some { sub := t.sub, email := t.email }
  else
    none

/-- Fallback access-token secret from `auth.service.ts` / `jwt.strategy.ts`
(`process.env.JWT_SECRET || ...`). -/
def jwtSecret : String := "your-secret-key-change-in-production"

/-- Fallback refresh-token secret from `auth.service.ts`
(`process.env.JWT_REFRESH_SECRET || ...`). -/
def jwtRefreshSecret : String := "your-refresh-secret-key"

/-- Access-token lifetime: `expiresIn: '15m'`, in seconds. -/
def accessTokenTtl : Nat := 15 * 60

/-- Refresh-token lifetime: `expiresIn: '7d'`, in seconds. -/
def refreshTokenTtl : Nat := 7 * 24 * 60 * 60

/-- Error kinds of the HTTP exception taxonomy used by the services
(`ConflictException`, `UnauthorizedException`, `ForbiddenException`,
`NotFoundException`, plus the statuses minted by `handlePrismaError`). -/
inductive ErrKind where
  | conflict
  | unauthorized
  | forbidden
  | notFound
  | badRequest
  | internal
deriving DecidableEq

/-- Prisma known-request error codes distinguished by
`handlePrismaError` in `src/common/prisma-error.handler.ts`. -/
inductive PrismaCode where
  | p2002 (target : String)
  | p2025
  | p2003
  | unknownCode
deriving DecidableEq

/-- A failure escaping a service method: either an HTTP exception
(kind and user-facing message) or a raw Prisma known-request error that
was not translated. -/
inductive Failure where
  | http (kind : ErrKind) (msg : String)
  | prismaKnown (code : PrismaCode)
deriving DecidableEq

/-- `handlePrismaError` from `src/common/prisma-error.handler.ts`:
translates Prisma known-request errors into the HTTP taxonomy and
rethrows every other error unchanged. -/
def handlePrismaError : Failure → Failure
  | .prismaKnown (.p2002 target) =>
      .http .conflict ("Duplicate field value: " ++ target)
  | .prismaKnown .p2025 => .http .notFound "Record not found"
  | .prismaKnown .p2003 => .http .badRequest "Foreign key constraint failed"
  | .prismaKnown .unknownCode => .http .internal "Database error occurred"
  | e => e

/-- A `User` row of the Prisma schema: unique id, unique email, bcrypt
password hash, display name, nullable bcrypt hash of the current refresh
token, and timestamps. -/
structure User where
  id : String
  email : String
  password : BcryptHash String
  name : String
  refreshToken : Option (BcryptHash Jwt)
  createdAt : Nat
  updatedAt : Nat
deriving DecidableEq

/-- A `Post` row: id, title, content, published flag, optional uploaded
file reference, owning user id, timestamps. -/
structure Post where
  id : String
  title : String
  content : String
  published : Bool
  fileUrl : Option String
  authorId : String
  createdAt : Nat
  updatedAt : Nat
deriving DecidableEq

/-- A `Reply` row: id, content, parent post id, owning user id, creation
timestamp. -/
structure Reply where
  id : String
  content : String
  postId : String
  authorId : String
  createdAt : Nat
deriving DecidableEq

/-- The record store backing `DatabaseService` (PrismaClient): the three
tables of the schema. -/
structure DB where
  users : List User
  posts : List Post
  replies : List Reply
deriving DecidableEq

/-- Prisma `update` on the `User` table with a unique `where`: applies `f`
to the matching records (the id is unique in the real store, so at most one
matches). -/
def updateUsersById (users : List User) (uid : String) (f : User → User) :
    List User :=
  users.map fun u => if u.id == uid then f u else u

/-- Model of `db.user.update({ where: { id }, data })`: rejects with Prisma
error P2025 when no record matches. -/
def dbUserUpdate (db : DB) (uid : String) (f : User → User) :
    Except Failure DB :=
  if db.users.any (fun u => u.id == uid) then
    .ok { db with users := updateUsersById db.users uid f }
  else
    .error (.prismaKnown .p2025)

/-- Prisma `update` on the `Post` table with a unique `where`. -/
def updatePostsById (posts : List Post) (pid : String) (f : Post → Post) :
    List Post :=
  posts.map fun p => if p.id == pid then f p else p

/-- Model of `db.post.update({ where: { id }, data })`. -/
def dbPostUpdate (db : DB) (pid : String) (f : Post → Post) :
    Except Failure DB :=
  if db.posts.any (fun p => p.id == pid) then
    .ok { db with posts := updatePostsById db.posts pid f }
  else
    .error (.prismaKnown .p2025)

/-- Model of `db.post.delete({ where: { id } })`: removes the matching
record, rejecting with P2025 when none matches. -/
def dbPostDelete (db : DB) (pid : String) : Except Failure DB :=
  if db.posts.any (fun p => p.id == pid) then
    .ok { db with posts := db.posts.filter (fun p => !(p.id == pid)) }
  else
    .error (.prismaKnown .p2025)

/-- Model of `db.reply.delete({ where: { id } })`. -/
def dbReplyDelete (db : DB) (rid : String) : Except Failure DB :=
  if db.replies.any (fun r => r.id == rid) then
    .ok { db with replies := db.replies.filter (fun r => !(r.id == rid)) }
  else
    .error (.prismaKnown .p2025)

/-- Result of a successful `transporter.sendMail` (nodemailer): the fields
the service reads back. -/
structure MailInfo where
  messageId : String
  previewUrl : String
deriving DecidableEq

namespace MailService

/-- `MailService.sendWelcomeEmail` of `src/mail/mail.service.ts`: attempts
the send and swallows any transporter failure (logged only), returning
nothing in that case — it never throws. The transporter outcome is the
explicit `sendResult` argument. -/
def sendWelcomeEmail (sendResult : Except String MailInfo)
    (recipient name : String) : Option MailInfo :=
  match sendResult with
  | .ok info => some info
  | .error _ => none

/-- `MailService.sendPostCreatedEmail`: same absorption of transporter
failures as `sendWelcomeEmail`. -/
def sendPostCreatedEmail (sendResult : Except String MailInfo)
    (recipient userName postTitle postId : String) : Option MailInfo :=
  match sendResult with
  | .ok info => some info
  | .error _ => none

end MailService

/-- The token pair returned by `AuthService.generateTokens`. -/
structure Tokens where
  accessToken : Jwt
  refreshToken : Jwt
deriving DecidableEq

/-- The `{ id, email, name }` object literal returned by register/login —
by construction it has exactly these three fields (no password). -/
structure UserSummary where
  id : String
  email : String
  name : String
deriving DecidableEq

/-- Return value of `AuthService.register` / `AuthService.login`:
`{ user: { id, email, name }, accessToken, refreshToken }`. -/
structure AuthResult where
  user : UserSummary
  accessToken : Jwt
  refreshToken : Jwt
deriving DecidableEq

/-- `RegisterDto`. -/
structure RegisterDto where
  email : String
  password : String
  name : String
deriving DecidableEq

/-- `LoginDto`. -/
structure LoginDto where
  email : String
  password : String
deriving DecidableEq

/-- A `{ message: ... }` confirmation object. -/
structure MessageResult where
  message : String
deriving DecidableEq

/-- The mutation `AuthService.updateRefreshToken` applies to the user row:
store a bcrypt hash (cost 10) of the new refresh token. -/
def withRefreshHash (rt : Jwt) (u : User) : User :=
  { u with refreshToken := some (bcryptHash rt 10) }

/-- The user row `AuthService.register` inserts via `db.user.create`:
the given email and name, a bcrypt (cost 10) hash of the password, and no
refresh-token hash yet. -/
def freshUserRecord (dto : RegisterDto) (newId : String) (now : Nat) : User :=
  { id := newId, email := dto.email, password := bcryptHash dto.password 10,
    name := dto.name, refreshToken := none, createdAt := now, updatedAt := now }

theorem freshUserRecord_id (dto : RegisterDto) (newId : String) (now : Nat) :
    (freshUserRecord dto newId now).id = newId := rfl

theorem freshUserRecord_email (dto : RegisterDto) (newId : String) (now : Nat) :
    (freshUserRecord dto newId now).email = dto.email := rfl

theorem freshUserRecord_name (dto : RegisterDto) (newId : String) (now : Nat) :
    (freshUserRecord dto newId now).name = dto.name := rfl

namespace AuthService

/-- `AuthService.generateTokens(userId, email)` at instant `now`: signs the
payload `{ sub: userId, email }` with the access secret for 15 minutes and
with the refresh secret for 7 days. -/
def generateTokens (userId email : String) (now : Nat) : Tokens :=
  { accessToken :=
      jwtSign { sub := userId, email := email } now accessTokenTtl jwtSecret,
    refreshToken :=
      jwtSign { sub := userId, email := email } now refreshTokenTtl
        jwtRefreshSecret }

/-- `AuthService.updateRefreshToken(userId, refreshToken)`: stores a bcrypt
hash (cost 10) of the refresh token on the user record. -/
def updateRefreshToken (db : DB) (userId : String) (refreshToken : Jwt) :
    Except Failure DB :=
  dbUserUpdate db userId (withRefreshHash refreshToken)

/-- Body of `AuthService.register` (inside its `try`): reject Conflict on a
stored email, create the user with a bcrypt (cost 10) password hash, issue
a token pair, persist the refresh-token hash, fire the welcome mail without
awaiting its outcome, and return `{ user: { id, email, name }, ...tokens }`. -/
def registerInner (db : DB) (now : Nat) (newId : String)
    (mailResult : Except String MailInfo) (dto : RegisterDto) :
    Except Failure (AuthResult × DB) :=
  match db.users.find? (fun u => u.email == dto.email) with
  | some _ => .error (.http .conflict "Email already exists")
  | none =>
    let user : User := freshUserRecord dto newId now
    let db1 : DB := { db with users := db.users ++ [user] }
    let tokens := generateTokens user.id user.email now
    match updateRefreshToken db1 user.id tokens.refreshToken with
    | .error e => .error e
    | .ok db2 =>
      let _mail := MailService.sendWelcomeEmail mailResult user.email user.name
      .ok ({ user := { id := user.id, email := user.email, name := user.name },
             accessToken := tokens.accessToken,
             refreshToken := tokens.refreshToken }, db2)

/-- `AuthService.register`: the whole body runs in a `try/catch` whose
handler is `handlePrismaError`. -/
def register (db : DB) (now : Nat) (newId : String)
    (mailResult : Except String MailInfo) (dto : RegisterDto) :
    Except Failure (AuthResult × DB) :=
  Except.mapError handlePrismaError (registerInner db now newId mailResult dto)

/-- `AuthService.login`: look the user up by email, compare the password
against the stored bcrypt hash — both failure paths throw
`UnauthorizedException('Invalid credentials')` — then issue a token pair,
persist the refresh-token hash and return user summary plus tokens. -/
def login (db : DB) (now : Nat) (dto : LoginDto) :
    Except Failure (AuthResult × DB) :=
  match db.users.find? (fun u => u.email == dto.email) with
  | none => .error (.http .unauthorized "Invalid credentials")
  | some user =>
    let passwordValid := bcryptCompare dto.password user.password
    if !passwordValid then
      .error (.http .unauthorized "Invalid credentials")
    else
      let tokens := generateTokens user.id user.email now
      match updateRefreshToken db user.id tokens.refreshToken with
      | .error e => .error e
      | .ok db2 =>
        .ok ({ user := { id := user.id, email := user.email,
                         name := user.name },
               accessToken := tokens.accessToken,
               refreshToken := tokens.refreshToken }, db2)

/-- Body of `AuthService.refreshToken` (inside its `try`): verify the
presented token against the refresh secret, load the user by the token's
subject, throw `'Access denied'` when the user is missing or has no stored
refresh-token hash, throw `'Invalid refresh token'` when the presented
token does not match the stored hash, and otherwise issue a new token pair
and persist the new refresh-token hash. -/
def refreshTokenInner (db : DB) (now : Nat) (presented : Jwt) :
    Except Failure (Tokens × DB) :=
  match jwtVerify presented jwtRefreshSecret now with
  | none => .error (.http .unauthorized "jwt verification failed")
  | some payload =>
    match db.users.find? (fun u => u.id == payload.sub) with
    | none => .error (.http .unauthorized "Access denied")
    | some user =>
      match user.refreshToken with
      | none => .error (.http .unauthorized "Access denied")
      | some stored =>
        if !bcryptCompare presented stored then
          .error (.http .unauthorized "Invalid refresh token")
        else
          let tokens := generateTokens user.id user.email now
          match updateRefreshToken db user.id tokens.refreshToken with
          | .error e => .error e
          | .ok db2 => .ok (tokens, db2)

/-- `AuthService.refreshToken`: the catch-all handler maps every failure of
the body — verification errors and the exceptions it throws itself — to
`UnauthorizedException('Invalid or expired refresh token')`. -/
def refreshToken (db : DB) (now : Nat) (presented : Jwt) :
    Except Failure (Tokens × DB) :=
  match refreshTokenInner db now presented with
  | .ok r => .ok r
  | .error _ => .error (.http .unauthorized "Invalid or expired refresh token")

/-- `AuthService.logout(userId)`: set the stored refresh-token hash to null
and return a confirmation message. There is no `try/catch` here, so a
store-level failure (P2025 for an unknown id) escapes untranslated. -/
def logout (db : DB) (userId : String) :
    Except Failure (MessageResult × DB) :=
  match dbUserUpdate db userId (fun u => { u with refreshToken := none }) with
  | .error e => .error e
  | .ok db2 => .ok ({ message := "Logged out successfully" }, db2)

end AuthService

/-- The `{ userId, email, name }` object `JwtStrategy.validate` attaches to
the request. -/
structure AuthUser where
  userId : String
  email : String
  name : String
deriving DecidableEq

namespace JwtStrategy

/-- `JwtStrategy.validate(payload)` of `src/auth/jwt.strategy.ts`: loads
the user by the token's subject id and throws
`UnauthorizedException('User not found')` when absent. -/
def validate (db : DB) (payload : JwtPayload) : Except Failure AuthUser :=
  match db.users.find? (fun u => u.id == payload.sub) with
  | none => .error (.http .unauthorized "User not found")
  | some user => .ok { userId := user.id, email := user.email,
                       name := user.name }

/-- The full bearer-token pipeline guarding a request: passport-jwt first
checks signature and expiry against the access secret (the strategy is
configured with `ignoreExpiration: false` and `secretOrKey = JWT_SECRET`),
then calls `validate` on the decoded payload. -/
def authorizeAccessToken (db : DB) (t : Jwt) (now : Nat) :
    Except Failure AuthUser :=
  match jwtVerify t jwtSecret now with
  | none => .error (.http .unauthorized "Unauthorized")
  | some payload => validate db payload

end JwtStrategy

/-- `CreatePostDto`: title, content, optional published flag, optional
file reference. -/
structure CreatePostDto where
  title : String
  content : String
  published : Option Bool
  fileUrl : Option String
deriving DecidableEq

/-- `UpdatePostDto`: the whitelisted partial fields of a post update. -/
structure UpdatePostDto where
  title : Option String
  content : Option String
  published : Option Bool
deriving DecidableEq

/-- Prisma's treatment of `data: updatePostDto`: fields the DTO leaves
undefined are skipped, defined ones overwrite the record. -/
def applyUpdateDto (dto : UpdatePostDto) (p : Post) : Post :=
  { p with title := dto.title.getD p.title,
           content := dto.content.getD p.content,
           published := dto.published.getD p.published }

/-- Prisma substring filter `{ contains: s }` on a string column. -/
def strContains (hay needle : String) : Bool :=
  hay.containsSubstr needle.toSubstring

/-- Model of Prisma `orderBy: { createdAt: 'desc' }`: sort newest-first. -/
def sortPostsDesc (ps : List Post) : List Post :=
  ps.mergeSort (fun a b => decide (b.createdAt ≤ a.createdAt))

/-- Return shape of `PostsService.findAll`: the page of posts, the total
matching count, the echoed page and limit, and the derived page count. -/
structure FindAllResult where
  posts : List Post
  total : Nat
  page : Nat
  limit : Nat
  totalPages : Nat
deriving DecidableEq

namespace PostsService

/-- Body of `PostsService.create` (inside its `try`): create the post
owned by `userId` (the published flag defaults to false in the schema when
omitted), fire the post-created mail to the author without awaiting it,
and return the created post. The `include`d author summary is the looked-up
owner row; a missing owner would violate the `authorId` foreign key
(Prisma P2003). -/
def createInner (db : DB) (userId : String) (dto : CreatePostDto)
    (newId : String) (now : Nat) (mailResult : Except String MailInfo) :
    Except Failure (Post × DB) :=
  match db.users.find? (fun u => u.id == userId) with
  | none => .error (.prismaKnown .p2003)
  | some author =>
    let post : Post :=
      { id := newId, title := dto.title, content := dto.content,
        published := dto.published.getD false, fileUrl := dto.fileUrl,
        authorId := userId, createdAt := now, updatedAt := now }
    let db2 : DB := { db with posts := db.posts ++ [post] }
    let _mail := MailService.sendPostCreatedEmail mailResult author.email
      author.name post.title post.id
    .ok (post, db2)

/-- `PostsService.create`: body wrapped by `handlePrismaError`. -/
def create (db : DB) (userId : String) (dto : CreatePostDto)
    (newId : String) (now : Nat) (mailResult : Except String MailInfo) :
    Except Failure (Post × DB) :=
  Except.mapError handlePrismaError
    (createInner db userId dto newId now mailResult)

/-- `PostsService.findAll(page = 1, limit = 10, search?)`: filter by the
substring search when present, order newest-first, skip `(page-1)*limit`
records, take `limit`, and return them with the total matching count and
the echoed page/limit. No store call can fail here, so the `try/catch`
wrapper is invisible in the model. -/
def findAll (db : DB) (page : Nat := 1) (limit : Nat := 10)
    (search : Option String := none) : FindAllResult :=
  let skip := (page - 1) * limit
  let matching :=
    match search with
    | some s =>
        db.posts.filter (fun p => strContains p.title s || strContains p.content s)
    | none => db.posts
  let sorted := sortPostsDesc matching
  { posts := (sorted.drop skip).take limit,
    total := matching.length,
    page := page,
    limit := limit,
    totalPages := (matching.length + limit - 1) / limit }

/-- Body of `PostsService.update` (inside its `try`): Not-Found when no
post has the id, Forbidden when the acting user does not own it, otherwise
apply the partial field updates (Prisma skips `undefined` fields) and
return the updated post. -/
def updateInner (db : DB) (id userId : String) (dto : UpdatePostDto) :
    Except Failure (Post × DB) :=
  match db.posts.find? (fun p => p.id == id) with
  | none => .error (.http .notFound "Post not found")
  | some post =>
    if post.authorId != userId then
      .error (.http .forbidden "You can only update your own posts")
    else
      match dbPostUpdate db id (applyUpdateDto dto) with
      | .error e => .error e
      | .ok db2 => .ok (applyUpdateDto dto post, db2)

/-- `PostsService.update`: body wrapped by `handlePrismaError` (which
rethrows the Not-Found and Forbidden HTTP exceptions unchanged). -/
def update (db : DB) (id userId : String) (dto : UpdatePostDto) :
    Except Failure (Post × DB) :=
  Except.mapError handlePrismaError (updateInner db id userId dto)

/-- Body of `PostsService.remove` (inside its `try`): same existence and
ownership guard as `update`; on success deletes the record and returns a
confirmation message. -/
def removeInner (db : DB) (id userId : String) :
    Except Failure (MessageResult × DB) :=
  match db.posts.find? (fun p => p.id == id) with
  | none => .error (.http .notFound "Post not found")
  | some post =>
    if post.authorId != userId then
      .error (.http .forbidden "You can only delete your own posts")
    else
      match dbPostDelete db id with
      | .error e => .error e
      | .ok db2 => .ok ({ message := "Post deleted successfully" }, db2)

/-- `PostsService.remove`: body wrapped by `handlePrismaError`. -/
def remove (db : DB) (id userId : String) :
    Except Failure (MessageResult × DB) :=
  Except.mapError handlePrismaError (removeInner db id userId)

/-- Body of `PostsService.deleteReply` (inside its `try`): Not-Found when
no reply has the id, Forbidden when the acting user is not the reply's
author, otherwise delete it. -/
def deleteReplyInner (db : DB) (replyId userId : String) :
    Except Failure (MessageResult × DB) :=
  match db.replies.find? (fun r => r.id == replyId) with
  | none => .error (.http .notFound "Reply not found")
  | some reply =>
    if reply.authorId != userId then
      .error (.http .forbidden "You can only delete your own replies")
    else
      match dbReplyDelete db replyId with
      | .error e => .error e
      | .ok db2 => .ok ({ message := "Reply deleted successfully" }, db2)

/-- `PostsService.deleteReply`: body wrapped by `handlePrismaError`. -/
def deleteReply (db : DB) (replyId userId : String) :
    Except Failure (MessageResult × DB) :=
  Except.mapError handlePrismaError (deleteReplyInner db replyId userId)

end PostsService

namespace PostsController

/-- `PostsController.deleteReply` (route `DELETE /posts/:postId/reply/:replyId`):
forwards only `replyId` and the authenticated user id to the service — the
`postId` path parameter is bound but never passed on. -/
def deleteReply (db : DB) (postId replyId userId : String) :
    Except Failure (MessageResult × DB) :=
  PostsService.deleteReply db replyId userId

end PostsController

/-! Helper lemmas about the store primitives. -/

/-- When a map preserves a predicate, `find?` commutes with it. -/
theorem find?_map_pres {α : Type} (p : α → Bool) (g : α → α)
    (hp : ∀ x, p (g x) = p x) (l : List α) :
    (l.map g).find? p = (l.find? p).map g := by
  rw [List.find?_map]
  have hfun : (p ∘ g) = p := funext hp
  rw [hfun]

/-- Looking a user up by id after an id-preserving `update` keyed on any id
finds the (possibly updated) record the lookup found before. -/
theorem find?_updateUsersById (users : List User) (uid x : String)
    (f : User → User) (hid : ∀ u, (f u).id = u.id) :
    (updateUsersById users uid f).find? (fun u => u.id == x)
      = (users.find? (fun u => u.id == x)).map
          (fun u => if u.id == uid then f u else u) := by
  apply find?_map_pres
  intro u
  by_cases h : (u.id == uid) = true
  · simp [h, hid]
  · simp [h]

/-- Looking a user up by email after an email-preserving `update` keyed on
an id finds the (possibly updated) record the lookup found before. -/
theorem find?_email_updateUsersById (users : List User) (uid x : String)
    (f : User → User) (hemail : ∀ u, (f u).email = u.email) :
    (updateUsersById users uid f).find? (fun u => u.email == x)
      = (users.find? (fun u => u.email == x)).map
          (fun u => if u.id == uid then f u else u) := by
  apply find?_map_pres
  intro u
  by_cases h : (u.id == uid) = true
  · simp [h, hemail]
  · simp [h]

/-- Looking a post up by id after an id-preserving `update` keyed on any id
finds the (possibly updated) record the lookup found before. -/
theorem find?_updatePostsById (posts : List Post) (pid x : String)
    (f : Post → Post) (hid : ∀ p, (f p).id = p.id) :
    (updatePostsById posts pid f).find? (fun p => p.id == x)
      = (posts.find? (fun p => p.id == x)).map
          (fun p => if p.id == pid then f p else p) := by
  apply find?_map_pres
  intro p
  by_cases h : (p.id == pid) = true
  · simp [h, hid]
  · simp [h]

/-- A record found by `find?` witnesses that `any` holds for its predicate. -/
theorem any_of_find?_eq_some {α : Type} {p : α → Bool} {l : List α} {a : α}
    (h : l.find? p = some a) : l.any p = true :=
  List.any_eq_true.mpr ⟨a, List.mem_of_find?_eq_some h, List.find?_some h⟩

/-- `dbUserUpdate` succeeds on the id of a user found in the store, and
yields exactly the mapped user list. -/
theorem dbUserUpdate_of_find? {db : DB} {x : String} {u : User}
    (hfind : db.users.find? (fun w => w.id == x) = some u)
    (f : User → User) :
    dbUserUpdate db u.id f
      = .ok { db with users := updateUsersById db.users u.id f } := by
  have hmem : u ∈ db.users := List.mem_of_find?_eq_some hfind
  have hany : db.users.any (fun w => w.id == u.id) = true :=
    List.any_eq_true.mpr ⟨u, hmem, beq_self_eq_true u.id⟩
  simp [dbUserUpdate, hany]

/-- A payload produced by a successful `jwtVerify` is exactly the token's
claims. -/
theorem jwtVerify_some_sub {t : Jwt} {secret : String} {now : Nat}
    {payload : JwtPayload} (hv : jwtVerify t secret now = some payload) :
    payload = { sub := t.sub, email := t.email } := by
  simp only [jwtVerify] at hv
  split at hv
  · injection hv with h
    exact h.symm
  · exact Option.noConfusion hv

/-- Deleting every record matching a predicate leaves nothing for `find?`
to find. -/
theorem find?_filter_not {α : Type} (p : α → Bool) (l : List α) :
    (l.filter (fun a => !(p a))).find? p = none := by
  rw [List.find?_eq_none]
  intro a ha
  have hmem := (List.mem_filter.mp ha).2
  simp only [Bool.not_eq_true'] at hmem
  simp [hmem]

/-- `PostsService.deleteReply` succeeds for the reply's author, removing
the record. -/
theorem deleteReply_ok_of_owner (db : DB) (replyId userId : String)
    (r : Reply) (hfind : db.replies.find? (fun x => x.id == replyId) = some r)
    (hown : r.authorId = userId) :
    PostsService.deleteReply db replyId userId
      = .ok ({ message := "Reply deleted successfully" },
             { db with replies :=
                 db.replies.filter (fun x => !(x.id == replyId)) }) := by
  have hany := any_of_find?_eq_some hfind
  simp [PostsService.deleteReply, PostsService.deleteReplyInner, hfind, hown,
    dbReplyDelete, hany, Except.mapError]

/-- `PostsService.deleteReply` refuses every identity other than the
reply's author. -/
theorem deleteReply_forbidden_of_nonowner (db : DB) (replyId userId : String)
    (r : Reply) (hfind : db.replies.find? (fun x => x.id == replyId) = some r)
    (hne : r.authorId ≠ userId) :
    PostsService.deleteReply db replyId userId
      = .error (.http .forbidden "You can only delete your own replies") := by
  have hbne : (r.authorId != userId) = true := bne_iff_ne.mpr hne
  simp [PostsService.deleteReply, PostsService.deleteReplyInner, hfind, hbne,
    Except.mapError, handlePrismaError]

/-- Claim C4: every failing login — unknown email, or known email with a
failing password comparison — produces the same error, Unauthorized with
the message "Invalid credentials", making the two failing runs
indistinguishable to the caller. -/
theorem login_enumeration_resistance (db : DB) (now : Nat) (dto : LoginDto) :
    (db.users.find? (fun u => u.email == dto.email) = none →
      AuthService.login db now dto
        = .error (.http .unauthorized "Invalid credentials")) ∧
    (∀ u, db.users.find? (fun w => w.email == dto.email) = some u →
      bcryptCompare dto.password u.password = false →
      AuthService.login db now dto
        = .error (.http .unauthorized "Invalid credentials")) := by
  constructor
  · intro h
    simp [AuthService.login, h]
  · intro u hu hpw
    simp [AuthService.login, hu, hpw]

/-- Claim C2: for a stored user, `logout` nulls the refresh-token hash and
returns the confirmation message; afterwards every refresh attempt whose
token names this user fails Unauthorized (there is no stored hash), while a
still-unexpired access token for the user keeps authorizing requests. -/
theorem logout_contract (db : DB) (uid : String) (u : User)
    (hfind : db.users.find? (fun x => x.id == uid) = some u) :
    ∃ db2,
      AuthService.logout db uid
        = .ok ({ message := "Logged out successfully" }, db2) ∧
      db2.users.find? (fun x => x.id == uid)
        = some { u with refreshToken := none } ∧
      (∀ t now, t.sub = uid →
        AuthService.refreshToken db2 now t
          = .error (.http .unauthorized "Invalid or expired refresh token")) ∧
      (∀ t now, t.sub = uid → t.secret = jwtSecret → now < t.exp →
        JwtStrategy.authorizeAccessToken db2 t now
          = .ok { userId := u.id, email := u.email, name := u.name }) := by
  have hu : (u.id == uid) = true := by
    have h := List.find?_some hfind
    simpa using h
  have hupd :
      dbUserUpdate db uid (fun w => { w with refreshToken := none })
        = .ok ⟨updateUsersById db.users uid
            (fun w => { w with refreshToken := none }), db.posts, db.replies⟩ := by
    have hany := any_of_find?_eq_some hfind
    simp [dbUserUpdate, hany, updateUsersById]
  have hfind2 : ∀ x : String, x = uid →
      (updateUsersById db.users uid
        (fun w => { w with refreshToken := none })).find?
          (fun w => w.id == x)
        = some { u with refreshToken := none } := by
    intro x hx
    rw [find?_updateUsersById db.users uid x
      (fun w => { w with refreshToken := none }) (fun w => rfl), hx, hfind]
    have hueq : u.id = uid := by simpa using hu
    simp [hueq]
  refine ⟨⟨updateUsersById db.users uid
      (fun w => { w with refreshToken := none }), db.posts, db.replies⟩,
    ?_, ?_, ?_, ?_⟩
  · simp [AuthService.logout, hupd]
  · exact hfind2 uid rfl
  · intro t now hsub
    cases hv : jwtVerify t jwtRefreshSecret now with
    | none =>
      simp [AuthService.refreshToken, AuthService.refreshTokenInner, hv]
    | some payload =>
      have hp := jwtVerify_some_sub hv
      subst hp
      have hf2 := hfind2 t.sub hsub
      simp [AuthService.refreshToken, AuthService.refreshTokenInner, hv, hf2]
  · intro t now hsub hsec hexp
    have hv : jwtVerify t jwtSecret now
        = some { sub := t.sub, email := t.email } := by
      simp [jwtVerify, hsec, hexp]
    have hf2 := hfind2 t.sub hsub
    simp [JwtStrategy.authorizeAccessToken, hv, JwtStrategy.validate, hf2]

/-- A refresh attempt fails with the catch-all Unauthorized error whenever
the stored hash for the token's subject does not match the presented
token. -/
theorem refreshToken_hashMismatch (db2 : DB) (n2 : Nat) (t : Jwt) (v : User)
    (s0 : BcryptHash Jwt)
    (hfindv : db2.users.find? (fun x => x.id == t.sub) = some v)
    (hstored2 : v.refreshToken = some s0)
    (hcmp : bcryptCompare t s0 = false) :
    AuthService.refreshToken db2 n2 t
      = .error (.http .unauthorized "Invalid or expired refresh token") := by
  cases hv2 : jwtVerify t jwtRefreshSecret n2 with
  | none =>
    simp [AuthService.refreshToken, AuthService.refreshTokenInner, hv2]
  | some payload =>
    have hp := jwtVerify_some_sub hv2
    subst hp
    simp [AuthService.refreshToken, AuthService.refreshTokenInner, hv2,
      hfindv, hstored2, hcmp]

/-- Claim C1: when the stored refresh-token hash matches a presented,
validly signed, unexpired refresh token, `refreshToken` succeeds with a new
token pair and overwrites the stored hash with a hash of the new refresh
token; a second refresh presenting the now-stale token fails Unauthorized
(at any later instant — the new pair is minted at a different instant than
the presented token was, so the stale token no longer matches the stored
hash). -/
theorem refresh_rotation (db : DB) (t : Jwt) (u : User) (h : BcryptHash Jwt)
    (n1 : Nat)
    (hfind : db.users.find? (fun x => x.id == t.sub) = some u)
    (hstored : u.refreshToken = some h)
    (hmatch : bcryptCompare t h = true)
    (hsecret : t.secret = jwtRefreshSecret)
    (hunexpired : n1 < t.exp)
    (hfresh : t.iat ≠ n1) :
    ∃ db2,
      AuthService.refreshToken db n1 t
        = .ok (AuthService.generateTokens u.id u.email n1, db2) ∧
      db2.users.find? (fun x => x.id == t.sub)
        = some { u with refreshToken := some (bcryptHash
            (AuthService.generateTokens u.id u.email n1).refreshToken 10) } ∧
      (∀ n2, AuthService.refreshToken db2 n2 t
        = .error (.http .unauthorized "Invalid or expired refresh token")) := by
  have hu : (u.id == t.sub) = true := by
    have hp := List.find?_some hfind
    simpa using hp
  have hueq : u.id = t.sub := by simpa using hu
  have hv : jwtVerify t jwtRefreshSecret n1
      = some { sub := t.sub, email := t.email } := by
    simp [jwtVerify, hsecret, hunexpired]
  have hupd :
      dbUserUpdate db u.id
          (withRefreshHash (AuthService.generateTokens u.id u.email n1).refreshToken)
        = .ok ⟨updateUsersById db.users u.id
            (withRefreshHash (AuthService.generateTokens u.id u.email n1).refreshToken),
            db.posts, db.replies⟩ := by
    have hany : db.users.any (fun w => w.id == u.id) = true :=
      List.any_eq_true.mpr ⟨u, List.mem_of_find?_eq_some hfind,
        beq_self_eq_true u.id⟩
    simp [dbUserUpdate, hany, updateUsersById]
  have hfind2 :
      (updateUsersById db.users u.id
        (withRefreshHash
          (AuthService.generateTokens u.id u.email n1).refreshToken)).find?
          (fun x => x.id == t.sub)
        = some { u with refreshToken := some (bcryptHash
            (AuthService.generateTokens u.id u.email n1).refreshToken 10) } := by
    rw [find?_updateUsersById db.users u.id t.sub
      (withRefreshHash (AuthService.generateTokens u.id u.email n1).refreshToken)
      (fun w => rfl), hfind]
    simp [hueq, withRefreshHash]
  have hneq : (t == (AuthService.generateTokens u.id u.email n1).refreshToken)
      = false := by
    rw [beq_eq_false_iff_ne]
    intro he
    apply hfresh
    have hiat : t.iat
        = (AuthService.generateTokens u.id u.email n1).refreshToken.iat := by
      rw [he]
    exact hiat
  refine ⟨⟨updateUsersById db.users u.id
      (withRefreshHash (AuthService.generateTokens u.id u.email n1).refreshToken),
      db.posts, db.replies⟩, ?_, ?_, ?_⟩
  · simp [AuthService.refreshToken, AuthService.refreshTokenInner, hv, hfind,
      hstored, hmatch, AuthService.updateRefreshToken, hupd]
  · exact hfind2
  · intro n2
    exact refreshToken_hashMismatch _ n2 t _
      (bcryptHash (AuthService.generateTokens u.id u.email n1).refreshToken 10)
      hfind2 rfl hneq

/-- Claim C5: `register` fails Conflict when the email is already stored;
otherwise it succeeds returning exactly `{ id, email, name }` (the
`UserSummary` carries no password field) together with the freshly
generated access and refresh tokens, and a second registration with the
same email against the resulting store fails Conflict. -/
theorem register_contract (db : DB) (now : Nat) (newId : String)
    (mr : Except String MailInfo) (dto : RegisterDto) :
    (∀ u, db.users.find? (fun x => x.email == dto.email) = some u →
      AuthService.register db now newId mr dto
        = .error (.http .conflict "Email already exists")) ∧
    (db.users.find? (fun x => x.email == dto.email) = none →
      ∃ db2,
        AuthService.register db now newId mr dto
          = .ok ({ user := { id := newId, email := dto.email, name := dto.name },
                   accessToken :=
                     (AuthService.generateTokens newId dto.email now).accessToken,
                   refreshToken :=
                     (AuthService.generateTokens newId dto.email now).refreshToken },
                 db2) ∧
        (∀ now2 newId2 mr2,
          AuthService.register db2 now2 newId2 mr2 dto
            = .error (.http .conflict "Email already exists"))) := by
  constructor
  · intro u hu
    simp [AuthService.register, AuthService.registerInner, hu, Except.mapError,
      handlePrismaError]
  · intro hnone
    have hany : (db.users ++ [freshUserRecord dto newId now]).any
        (fun x => x.id == newId) = true := by
      simp [List.any_append, freshUserRecord_id]
    have hupd : dbUserUpdate
          ⟨db.users ++ [freshUserRecord dto newId now], db.posts, db.replies⟩
          newId
          (withRefreshHash (AuthService.generateTokens newId dto.email now).refreshToken)
        = .ok ⟨updateUsersById (db.users ++ [freshUserRecord dto newId now])
            newId (withRefreshHash
              (AuthService.generateTokens newId dto.email now).refreshToken),
            db.posts, db.replies⟩ := by
      simp [dbUserUpdate, hany]
    have hfind2 : (updateUsersById (db.users ++ [freshUserRecord dto newId now])
          newId (withRefreshHash
            (AuthService.generateTokens newId dto.email now).refreshToken)).find?
          (fun x => x.email == dto.email)
        = some (withRefreshHash
            (AuthService.generateTokens newId dto.email now).refreshToken
            (freshUserRecord dto newId now)) := by
      rw [find?_email_updateUsersById _ newId dto.email
        (withRefreshHash (AuthService.generateTokens newId dto.email now).refreshToken)
        (fun w => rfl), List.find?_append, hnone]
      simp [List.find?, freshUserRecord_email, freshUserRecord_id]
    refine ⟨⟨updateUsersById (db.users ++ [freshUserRecord dto newId now])
        newId (withRefreshHash
          (AuthService.generateTokens newId dto.email now).refreshToken),
        db.posts, db.replies⟩, ?_, ?_⟩
    · simp [AuthService.register, AuthService.registerInner, hnone,
        AuthService.updateRefreshToken, hupd, Except.mapError,
        freshUserRecord_id, freshUserRecord_email, freshUserRecord_name]
    · intro now2 newId2 mr2
      simp [AuthService.register, AuthService.registerInner, hfind2,
        Except.mapError, handlePrismaError]

/-- Example fixtures for concrete witnesses: a stored user, stores with and
without that user, and a validly signed access token for them. -/
def exUser : User :=
  { id := "u1", email := "a@x.com", password := bcryptHash "pw123456" 10,
    name := "A", refreshToken := none, createdAt := 0, updatedAt := 0 }

/-- A store containing exactly `exUser`. -/
def exDb : DB := { users := [exUser], posts := [], replies := [] }

/-- The empty store. -/
def emptyDb : DB := { users := [], posts := [], replies := [] }

/-- An access token for `exUser` signed with the access secret at instant
0, expiring at 900. -/
def exAccessToken : Jwt :=
  jwtSign { sub := "u1", email := "a@x.com" } 0 accessTokenTtl jwtSecret

/-- Claim C3, counterexample: access-token validity is NOT determined
solely by signature and expiry — `JwtStrategy.validate` performs a store
lookup of the subject user. The same validly signed, unexpired token is
accepted against a store containing the user and rejected (Unauthorized
"User not found") against the empty store, so the decision depends on the
store, contradicting the claim. -/
theorem access_token_statelessness_counterexample :
    jwtVerify exAccessToken jwtSecret 0
      = some { sub := "u1", email := "a@x.com" } ∧
    JwtStrategy.authorizeAccessToken exDb exAccessToken 0
      = .ok { userId := "u1", email := "a@x.com", name := "A" } ∧
    JwtStrategy.authorizeAccessToken emptyDb exAccessToken 0
      = .error (.http .unauthorized "User not found") := by
  refine ⟨rfl, rfl, rfl⟩

/-- Claim C3, amended: access-token validation checks the signature and
expiry and additionally performs one store lookup — the existence of the
user named by the token's subject. It depends on the store only through
that existence check: acceptance is equivalent to the subject user being
present, and the decision is invariant under arbitrary changes to every
stored refresh-token hash (no refresh-hash check happens on the access
path). -/
theorem access_token_validation_amended (db : DB) (t : Jwt) (now : Nat) :
    (jwtVerify t jwtSecret now = none →
      JwtStrategy.authorizeAccessToken db t now
        = .error (.http .unauthorized "Unauthorized")) ∧
    (∀ payload, jwtVerify t jwtSecret now = some payload →
      ((JwtStrategy.authorizeAccessToken db t now).isOk = true
        ↔ (db.users.find? (fun u => u.id == payload.sub)).isSome = true)) ∧
    (∀ g : User → Option (BcryptHash Jwt),
      JwtStrategy.authorizeAccessToken
          ⟨db.users.map (fun u => { u with refreshToken := g u }),
           db.posts, db.replies⟩ t now
        = JwtStrategy.authorizeAccessToken db t now) := by
  refine ⟨?_, ?_, ?_⟩
  · intro h
    simp [JwtStrategy.authorizeAccessToken, h]
  · intro payload hv
    cases hf : db.users.find? (fun u => u.id == payload.sub) with
    | none =>
      simp [JwtStrategy.authorizeAccessToken, JwtStrategy.validate, hv, hf,
        Except.isOk, Except.toBool]
    | some u =>
      simp [JwtStrategy.authorizeAccessToken, JwtStrategy.validate, hv, hf,
        Except.isOk, Except.toBool]
  · intro g
    cases hv : jwtVerify t jwtSecret now with
    | none =>
      simp [JwtStrategy.authorizeAccessToken, hv]
    | some payload =>
      have hmap := find?_map_pres (fun u : User => u.id == payload.sub)
        (fun u => { u with refreshToken := g u }) (fun u => rfl) db.users
      cases hf : db.users.find? (fun u => u.id == payload.sub) with
      | none =>
        rw [hf] at hmap
        simp [JwtStrategy.authorizeAccessToken, JwtStrategy.validate, hv, hf,
          hmap]
      | some u =>
        rw [hf] at hmap
        simp [JwtStrategy.authorizeAccessToken, JwtStrategy.validate, hv, hf,
          hmap]

/-- Claim C6: `update` and `remove` fail Not-Found when no post has the id
(for every acting user — the existence check precedes the ownership check),
fail Forbidden when the post exists but is owned by a different user, and
otherwise succeed: `update` applies exactly the defined partial fields to
the stored record and returns the updated post, `remove` deletes the record
(no post with that id remains) and returns the confirmation message. -/
theorem post_mutation_guard (db : DB) (id userId : String)
    (dto : UpdatePostDto) :
    (db.posts.find? (fun p => p.id == id) = none →
      PostsService.update db id userId dto
        = .error (.http .notFound "Post not found") ∧
      PostsService.remove db id userId
        = .error (.http .notFound "Post not found")) ∧
    (∀ post, db.posts.find? (fun p => p.id == id) = some post →
      post.authorId ≠ userId →
      PostsService.update db id userId dto
        = .error (.http .forbidden "You can only update your own posts") ∧
      PostsService.remove db id userId
        = .error (.http .forbidden "You can only delete your own posts")) ∧
    (∀ post, db.posts.find? (fun p => p.id == id) = some post →
      post.authorId = userId →
      PostsService.update db id userId dto
        = .ok (applyUpdateDto dto post,
               ⟨db.users, updatePostsById db.posts id (applyUpdateDto dto),
                db.replies⟩) ∧
      (updatePostsById db.posts id (applyUpdateDto dto)).find?
          (fun p => p.id == id) = some (applyUpdateDto dto post) ∧
      PostsService.remove db id userId
        = .ok ({ message := "Post deleted successfully" },
               ⟨db.users, db.posts.filter (fun p => !(p.id == id)),
                db.replies⟩) ∧
      (db.posts.filter (fun p => !(p.id == id))).find?
          (fun p => p.id == id) = none) := by
  refine ⟨?_, ?_, ?_⟩
  · intro h
    constructor
    · simp [PostsService.update, PostsService.updateInner, h, Except.mapError,
        handlePrismaError]
    · simp [PostsService.remove, PostsService.removeInner, h, Except.mapError,
        handlePrismaError]
  · intro post hfind hne
    have hbne : (post.authorId != userId) = true := bne_iff_ne.mpr hne
    constructor
    · simp [PostsService.update, PostsService.updateInner, hfind, hbne,
        Except.mapError, handlePrismaError]
    · simp [PostsService.remove, PostsService.removeInner, hfind, hbne,
        Except.mapError, handlePrismaError]
  · intro post hfind hown
    have hany := any_of_find?_eq_some hfind
    have hpid : (post.id == id) = true := by
      have hp := List.find?_some hfind
      simpa using hp
    have hpideq : post.id = id := by simpa using hpid
    refine ⟨?_, ?_, ?_, ?_⟩
    · simp [PostsService.update, PostsService.updateInner, hfind, hown,
        dbPostUpdate, hany, Except.mapError, updatePostsById]
    · rw [find?_updatePostsById db.posts id id (applyUpdateDto dto)
        (fun p => rfl), hfind]
      simp [hpideq]
    · simp [PostsService.remove, PostsService.removeInner, hfind, hown,
        dbPostDelete, hany, Except.mapError]
    · exact find?_filter_not (fun p => p.id == id) db.posts

/-- Claim C7: for an existing reply, `deleteReply` succeeds exactly when
the acting user is the reply's author and fails Forbidden for every other
identity — in particular for the owner of the reply's parent post when
that owner is not the reply's author — and it fails Not-Found when no
reply has the id. -/
theorem reply_deletion_ownership (db : DB) (replyId userId : String) :
    (db.replies.find? (fun x => x.id == replyId) = none →
      PostsService.deleteReply db replyId userId
        = .error (.http .notFound "Reply not found")) ∧
    (∀ r, db.replies.find? (fun x => x.id == replyId) = some r →
      (PostsService.deleteReply db replyId userId
          = .ok ({ message := "Reply deleted successfully" },
                 ⟨db.users, db.posts,
                  db.replies.filter (fun x => !(x.id == replyId))⟩)
        ↔ userId = r.authorId) ∧
      (userId ≠ r.authorId →
        PostsService.deleteReply db replyId userId
          = .error (.http .forbidden "You can only delete your own replies"))) ∧
    (∀ r p, db.replies.find? (fun x => x.id == replyId) = some r →
      p ∈ db.posts → p.id = r.postId → p.authorId ≠ r.authorId →
      PostsService.deleteReply db replyId p.authorId
        = .error (.http .forbidden "You can only delete your own replies")) := by
  refine ⟨?_, ?_, ?_⟩
  · intro h
    simp [PostsService.deleteReply, PostsService.deleteReplyInner, h,
      Except.mapError, handlePrismaError]
  · intro r hfind
    constructor
    · constructor
      · intro hok
        by_contra hne
        have hforb := deleteReply_forbidden_of_nonowner db replyId userId r
          hfind (fun he => hne he.symm)
        rw [hforb] at hok
        exact Except.noConfusion hok
      · intro hown
        exact deleteReply_ok_of_owner db replyId userId r hfind hown.symm
    · intro hne
      exact deleteReply_forbidden_of_nonowner db replyId userId r hfind
        (fun he => hne he.symm)
  · intro r p hfind hmem hpid hne
    exact deleteReply_forbidden_of_nonowner db replyId p.authorId r hfind
      (fun he => hne he.symm)

/-- Claim C8: on a store with `N ≥ 1` posts, `findAll 1 10` (no search)
reports `total = N`, echoes `page = 1` and `limit = 10`, returns
`min N 10` posts — the first `limit` posts of the newest-first ordering
after skipping `(page - 1) * limit` of them — and the returned page is
ordered newest-first by creation time. -/
theorem listPosts_pagination (db : DB) (hN : 1 ≤ db.posts.length) :
    (PostsService.findAll db 1 10 none).total = db.posts.length ∧
    (PostsService.findAll db 1 10 none).page = 1 ∧
    (PostsService.findAll db 1 10 none).limit = 10 ∧
    (PostsService.findAll db 1 10 none).posts.length
      = min db.posts.length 10 ∧
    (PostsService.findAll db 1 10 none).posts
      = ((sortPostsDesc db.posts).drop ((1 - 1) * 10)).take 10 ∧
    List.Pairwise (fun a b : Post => b.createdAt ≤ a.createdAt)
      (PostsService.findAll db 1 10 none).posts := by
  refine ⟨rfl, rfl, rfl, ?_, rfl, ?_⟩
  · show (((sortPostsDesc db.posts).drop ((1 - 1) * 10)).take 10).length = _
    rw [show (1 - 1) * 10 = 0 from rfl, List.drop_zero, List.length_take,
      sortPostsDesc, List.length_mergeSort, Nat.min_comm]
  · have htrans : ∀ a b c : Post,
        decide (b.createdAt ≤ a.createdAt) = true →
        decide (c.createdAt ≤ b.createdAt) = true →
        decide (c.createdAt ≤ a.createdAt) = true := by
      intro a b c hab hbc
      rw [decide_eq_true_iff] at *
      omega
    have htotal : ∀ a b : Post,
        (decide (b.createdAt ≤ a.createdAt)
          || decide (a.createdAt ≤ b.createdAt)) = true := by
      intro a b
      rcases Nat.le_total b.createdAt a.createdAt with h | h <;> simp [h]
    have hs := @List.sorted_mergeSort Post
      (fun a b => decide (b.createdAt ≤ a.createdAt)) htrans htotal db.posts
    have hs2 : List.Pairwise (fun a b : Post => b.createdAt ≤ a.createdAt)
        (sortPostsDesc db.posts) := by
      refine hs.imp ?_
      intro a b hab
      exact of_decide_eq_true hab
    show List.Pairwise _ (((sortPostsDesc db.posts).drop ((1 - 1) * 10)).take 10)
    exact List.Pairwise.sublist
      (List.Sublist.trans (List.take_sublist _ _) (List.drop_sublist _ _)) hs2

/-- Claim C9: the outcome of registration and of post creation — the value
returned and any error raised — is independent of the notification
channel's outcome, and the mail sender itself absorbs a transporter
failure, producing no message instead of raising. -/
theorem notification_absorption :
    (∀ db now newId dto o1 o2,
      AuthService.register db now newId o1 dto
        = AuthService.register db now newId o2 dto) ∧
    (∀ db userId dto newId now o1 o2,
      PostsService.create db userId dto newId now o1
        = PostsService.create db userId dto newId now o2) ∧
    (∀ e recipient name,
      MailService.sendWelcomeEmail (.error e) recipient name = none) ∧
    (∀ e recipient userName postTitle postId,
      MailService.sendPostCreatedEmail (.error e) recipient userName
        postTitle postId = none) := by
  refine ⟨?_, ?_, fun e recipient name => rfl,
    fun e recipient userName postTitle postId => rfl⟩
  · intro db now newId dto o1 o2
    cases hf : db.users.find? (fun u => u.email == dto.email) <;>
      simp [AuthService.register, AuthService.registerInner, hf]
  · intro db userId dto newId now o1 o2
    cases hf : db.users.find? (fun u => u.id == userId) <;>
      simp [PostsService.create, PostsService.createInner, hf]

/-- Claim C10: the controller route for reply deletion binds the `postId`
path parameter but never passes it on — the outcome is identical for any
two `postId` values, and a reply owned by the acting user is deleted no
matter which `postId` the URL carries (in particular one that is not the
reply's parent post). -/
theorem controller_deleteReply_ignores_postId :
    (∀ db postId1 postId2 replyId userId,
      PostsController.deleteReply db postId1 replyId userId
        = PostsController.deleteReply db postId2 replyId userId) ∧
    (∀ db postId replyId userId r,
      db.replies.find? (fun x => x.id == replyId) = some r →
      r.authorId = userId →
      PostsController.deleteReply db postId replyId userId
        = .ok ({ message := "Reply deleted successfully" },
               ⟨db.users, db.posts,
                db.replies.filter (fun x => !(x.id == replyId))⟩)) := by
  constructor
  · intro db postId1 postId2 replyId userId
    rfl
  · intro db postId replyId userId r hfind hown
    exact deleteReply_ok_of_owner db replyId userId r hfind hown

/-- A refresh token for `exUser` signed with the refresh secret at instant
0 (expiring at 604800). -/
def exOldRefresh : Jwt :=
  jwtSign { sub := "u1", email := "a@x.com" } 0 refreshTokenTtl jwtRefreshSecret

/-- `exUser` with the hash of `exOldRefresh` stored as current
refresh-token hash. -/
def exUserWithRT : User :=
  { exUser with refreshToken := some (bcryptHash exOldRefresh 10) }

/-- A store containing exactly `exUserWithRT`. -/
def exDbRT : DB := { users := [exUserWithRT], posts := [], replies := [] }

/-- Concrete witness for the refresh-rotation theorem: the stored user
`exUserWithRT` refreshing with `exOldRefresh` at instant 1000. -/
theorem refresh_rotation_witness :
    ∃ db2,
      AuthService.refreshToken exDbRT 1000 exOldRefresh
        = .ok (AuthService.generateTokens exUserWithRT.id exUserWithRT.email
            1000, db2) ∧
      db2.users.find? (fun x => x.id == exOldRefresh.sub)
        = some { exUserWithRT with refreshToken := some (bcryptHash
            (AuthService.generateTokens exUserWithRT.id exUserWithRT.email
              1000).refreshToken 10) } ∧
      (∀ n2, AuthService.refreshToken db2 n2 exOldRefresh
        = .error (.http .unauthorized "Invalid or expired refresh token")) :=
  refresh_rotation exDbRT exOldRefresh exUserWithRT (bcryptHash exOldRefresh 10)
    1000 rfl rfl (by decide) rfl (by decide) (by decide)

/-- Concrete witness for the logout contract: logging `exUserWithRT` out
of `exDbRT`. -/
theorem logout_contract_witness :
    ∃ db2,
      AuthService.logout exDbRT "u1"
        = .ok ({ message := "Logged out successfully" }, db2) ∧
      db2.users.find? (fun x => x.id == "u1")
        = some { exUserWithRT with refreshToken := none } ∧
      (∀ t now, t.sub = "u1" →
        AuthService.refreshToken db2 now t
          = .error (.http .unauthorized "Invalid or expired refresh token")) ∧
      (∀ t now, t.sub = "u1" → t.secret = jwtSecret → now < t.exp →
        JwtStrategy.authorizeAccessToken db2 t now
          = .ok { userId := exUserWithRT.id, email := exUserWithRT.email,
                  name := exUserWithRT.name }) :=
  logout_contract exDbRT "u1" exUserWithRT rfl

/-- Concrete witness for the amended access-token claim: for the validly
signed, unexpired `exAccessToken`, acceptance against `exDb` is equivalent
to the presence of the subject user. -/
theorem access_token_validation_amended_witness :
    (JwtStrategy.authorizeAccessToken exDb exAccessToken 0).isOk = true
      ↔ (exDb.users.find?
          (fun u => u.id == (JwtPayload.mk "u1" "a@x.com").sub)).isSome
        = true :=
  (access_token_validation_amended exDb exAccessToken 0).2.1
    { sub := "u1", email := "a@x.com" } rfl

/-- Concrete witness for login enumeration resistance: the unknown-email
and wrong-password runs produce the very same error value. -/
theorem login_enumeration_resistance_witness :
    AuthService.login emptyDb 0 { email := "a@x.com", password := "pw123456" }
      = .error (.http .unauthorized "Invalid credentials") ∧
    AuthService.login exDb 0 { email := "a@x.com", password := "wrong" }
      = .error (.http .unauthorized "Invalid credentials") :=
  ⟨(login_enumeration_resistance emptyDb 0
      { email := "a@x.com", password := "pw123456" }).1 rfl,
   (login_enumeration_resistance exDb 0
      { email := "a@x.com", password := "wrong" }).2 exUser rfl (by decide)⟩

/-- Concrete witness for the register contract: registering an already
stored email fails Conflict, and a fresh registration succeeds and blocks
a second one. -/
theorem register_contract_witness :
    AuthService.register exDb 0 "u9" (.error "smtp down")
        { email := "a@x.com", password := "pw2", name := "B" }
      = .error (.http .conflict "Email already exists") ∧
    (∃ db2,
      AuthService.register emptyDb 5 "u1" (.error "smtp down")
          { email := "a@x.com", password := "pw123456", name := "A" }
        = .ok ({ user := { id := "u1", email := "a@x.com", name := "A" },
                 accessToken :=
                   (AuthService.generateTokens "u1" "a@x.com" 5).accessToken,
                 refreshToken :=
                   (AuthService.generateTokens "u1" "a@x.com" 5).refreshToken },
               db2) ∧
      (∀ now2 newId2 mr2,
        AuthService.register db2 now2 newId2 mr2
            { email := "a@x.com", password := "pw123456", name := "A" }
          = .error (.http .conflict "Email already exists"))) :=
  ⟨(register_contract exDb 0 "u9" (.error "smtp down")
      { email := "a@x.com", password := "pw2", name := "B" }).1 exUser rfl,
   (register_contract emptyDb 5 "u1" (.error "smtp down")
      { email := "a@x.com", password := "pw123456", name := "A" }).2 rfl⟩

/-- A stored post owned by `exUser`. -/
def exPost : Post :=
  { id := "p1", title := "T", content := "C", published := true,
    fileUrl := none, authorId := "u1", createdAt := 5, updatedAt := 5 }

/-- A partial update touching only the title. -/
def exUpdateDto : UpdatePostDto :=
  { title := some "T2", content := none, published := none }

/-- A store with `exUser` and their post `exPost`. -/
def exDbPosts : DB := { users := [exUser], posts := [exPost], replies := [] }

/-- Concrete witness for the post mutation guard: Not-Found on a missing
id, Forbidden for a non-owner, success for the owner. -/
theorem post_mutation_guard_witness :
    (PostsService.update exDbPosts "nope" "u1" exUpdateDto
        = .error (.http .notFound "Post not found") ∧
     PostsService.remove exDbPosts "nope" "u1"
        = .error (.http .notFound "Post not found")) ∧
    (PostsService.update exDbPosts "p1" "u2" exUpdateDto
        = .error (.http .forbidden "You can only update your own posts") ∧
     PostsService.remove exDbPosts "p1" "u2"
        = .error (.http .forbidden "You can only delete your own posts")) ∧
    (PostsService.update exDbPosts "p1" "u1" exUpdateDto
        = .ok (applyUpdateDto exUpdateDto exPost,
               ⟨exDbPosts.users,
                updatePostsById exDbPosts.posts "p1"
                  (applyUpdateDto exUpdateDto), exDbPosts.replies⟩) ∧
     (updatePostsById exDbPosts.posts "p1"
          (applyUpdateDto exUpdateDto)).find? (fun p => p.id == "p1")
        = some (applyUpdateDto exUpdateDto exPost) ∧
     PostsService.remove exDbPosts "p1" "u1"
        = .ok ({ message := "Post deleted successfully" },
               ⟨exDbPosts.users,
                exDbPosts.posts.filter (fun p => !(p.id == "p1")),
                exDbPosts.replies⟩) ∧
     (exDbPosts.posts.filter (fun p => !(p.id == "p1"))).find?
          (fun p => p.id == "p1") = none) :=
  ⟨(post_mutation_guard exDbPosts "nope" "u1" exUpdateDto).1 rfl,
   (post_mutation_guard exDbPosts "p1" "u2" exUpdateDto).2.1 exPost rfl
     (by decide),
   (post_mutation_guard exDbPosts "p1" "u1" exUpdateDto).2.2 exPost rfl rfl⟩

/-- A stored reply on `exPost`, authored by a user other than the post's
owner. -/
def exReply : Reply :=
  { id := "r1", content := "hi", postId := "p1", authorId := "u2",
    createdAt := 6 }

/-- A store with `exUser`, their post `exPost` and the reply `exReply`
authored by "u2". -/
def exDbReplies : DB :=
  { users := [exUser], posts := [exPost], replies := [exReply] }

/-- Concrete witness for reply-deletion ownership: the parent post's owner
("u1") is refused, the reply's author ("u2") succeeds. -/
theorem reply_deletion_ownership_witness :
    PostsService.deleteReply exDbReplies "r1" exPost.authorId
      = .error (.http .forbidden "You can only delete your own replies") ∧
    PostsService.deleteReply exDbReplies "r1" "u2"
      = .ok ({ message := "Reply deleted successfully" },
             ⟨exDbReplies.users, exDbReplies.posts,
              exDbReplies.replies.filter (fun x => !(x.id == "r1"))⟩) :=
  ⟨(reply_deletion_ownership exDbReplies "r1" "ignored").2.2 exReply exPost
     rfl (by decide) rfl (by decide),
   ((reply_deletion_ownership exDbReplies "r1" "u2").2.1 exReply rfl).1.mpr
     rfl⟩

/-- A second stored post, newer than `exPost`. -/
def exPost2 : Post :=
  { id := "p2", title := "U", content := "D", published := false,
    fileUrl := none, authorId := "u1", createdAt := 9, updatedAt := 9 }

/-- A store holding two posts. -/
def exDbTwoPosts : DB :=
  { users := [exUser], posts := [exPost, exPost2], replies := [] }

/-- Concrete witness for the pagination shape on a two-post store. -/
theorem listPosts_pagination_witness :
    (PostsService.findAll exDbTwoPosts 1 10 none).total
      = exDbTwoPosts.posts.length ∧
    (PostsService.findAll exDbTwoPosts 1 10 none).page = 1 ∧
    (PostsService.findAll exDbTwoPosts 1 10 none).limit = 10 ∧
    (PostsService.findAll exDbTwoPosts 1 10 none).posts.length
      = min exDbTwoPosts.posts.length 10 ∧
    (PostsService.findAll exDbTwoPosts 1 10 none).posts
      = ((sortPostsDesc exDbTwoPosts.posts).drop ((1 - 1) * 10)).take 10 ∧
    List.Pairwise (fun a b : Post => b.createdAt ≤ a.createdAt)
      (PostsService.findAll exDbTwoPosts 1 10 none).posts :=
  listPosts_pagination exDbTwoPosts (by decide)

/-- Concrete witness for the controller ignoring `postId`: the reply is
deleted through a URL naming a `postId` that is not the reply's parent. -/
theorem controller_deleteReply_ignores_postId_witness :
    PostsController.deleteReply exDbReplies "not-the-parent" "r1" "u2"
      = .ok ({ message := "Reply deleted successfully" },
             ⟨exDbReplies.users, exDbReplies.posts,
              exDbReplies.replies.filter (fun x => !(x.id == "r1"))⟩) :=
  (controller_deleteReply_ignores_postId).2 exDbReplies "not-the-parent" "r1"
    "u2" exReply rfl rfl

/-- Claim C1, counterexample to the unconditional statement: refreshing at
the very instant the presented token was issued mints a refresh token with
identical claims, issued-at and expiry — the same token value — so the
overwritten stored hash is a hash of that same value and the store is
unchanged. The refresh succeeds, and therefore a second refresh presenting
the same token against the resulting store (the unchanged `exDbRT`) is the
very same successful call rather than an Unauthorized failure. -/
theorem refresh_rotation_counterexample :
    AuthService.refreshToken exDbRT 0 exOldRefresh
      = .ok (AuthService.generateTokens "u1" "a@x.com" 0, exDbRT) := rfl
